import Mathlib

/-!
Verification of the Aimx_Api client-side security layer.

This file gives a shallow embedding of two axios client modules and a
Next.js route-guard middleware, and proves (or refutes) the specified
properties about them.

Embedded source units:
* the authenticated request gateway created by createApiClient
  (response interceptor with token refresh and request replay);
* the secondary api client of src/lib/apiClient.ts (401 handler);
* the middleware function of src/lib/security-headers.ts (route guard).
-/

/-! Section: JavaScript value helpers

Cookie reads and response fields behave like JS values: absent and
empty-string values are falsy. jsTruthyStr normalises an optional
string the way a JS truthiness test does; jsIncludes mirrors
String.prototype.includes. -/

/-- JS truthiness for an optional string: absent and the empty string
are falsy; any other value passes through. -/
def jsTruthyStr : Option String → Option String
  | none => none
  | some v => if v = "" then none else some v

/-- Helper for jsIncludes: pat occurs contiguously in the character
list. -/
def jsIncludesAux (pat : List Char) : List Char → Bool
  | [] => pat.isEmpty
  | c :: rest => pat.isPrefixOf (c :: rest) || jsIncludesAux pat rest

/-- Mirrors the JS expression s.includes(pat): pat occurs as a
contiguous substring of s. -/
def jsIncludes (s pat : String) : Bool :=
  jsIncludesAux pat.toList s.toList

/-! Section: Credential store (js-cookie keys token, refresh_token, user_id) -/

/-- The cookie-backed credential store: keys token, refresh_token and
user_id, each possibly absent. -/
structure CookieStore where
  token : Option String
  refresh_token : Option String
  user_id : Option String
deriving DecidableEq, Repr

/-! Section: HTTP transport values -/

/-- A transport-level response: HTTP status, the data.message field
(the empty string when the payload carries no message, matching the
source fallback to the empty string), and an uninterpreted body used to
state response-identity properties. -/
structure HttpResp where
  status : Nat
  message : String
  body : String
deriving DecidableEq, Repr

/-- An axios rejection value: error.response is present for upstream
HTTP errors and absent for transport-level failures. -/
structure AxiosErr where
  response : Option HttpResp
deriving DecidableEq, Repr

/-- The source expression error.response?.data?.message with fallback
to the empty string. -/
def errMsgOf (e : AxiosErr) : String :=
  match e.response with
  | some r => r.message
  | none => ""

/-- A rejected promise value inside the gateway: either an axios error
(carrying an optional response) or a plain JS Error built with new
Error(msg), which has no response field. -/
inductive RejectVal where
  | axios : AxiosErr → RejectVal
  | plain : String → RejectVal
deriving DecidableEq, Repr

/-! Section: Route guard middleware (src/lib/security-headers.ts line 208) -/

/-- The configured protected route prefixes of the middleware
(commented-out entries of the source list omitted, as in the source). -/
def protectedRoutes : List String :=
  ["/dashboard", "/project-dockets", "/datasets"]

/-- Mirrors the JS expression s.startsWith(pre). -/
def jsStartsWith (s pre : String) : Bool :=
  pre.toList.isPrefixOf s.toList

/-- The source expression protectedRoutes.some(route =>
pathname.startsWith(route)). -/
def isProtectedPath (pathname : String) : Bool :=
  protectedRoutes.any (fun route => jsStartsWith pathname route)

/-- A middleware decision: redirect to a URL or pass the request
through via NextResponse.next(). -/
inductive MwDecision where
  | redirect : String → MwDecision
  | next : MwDecision
deriving DecidableEq, Repr

/-- The middleware function of security-headers.ts: cookieToken is the
raw token cookie (absent, or its string value). The source coerces a
falsy cookie value to null, redirects protected paths without a usable
token to the public landing route, and redirects the public landing
route to /organizations when a token is present. -/
def middleware (cookieToken : Option String) (pathname : String) : MwDecision :=
  let token : Option String := jsTruthyStr cookieToken
  if (token = none ∨ token = some "undefined") ∧ isProtectedPath pathname = true then
    .redirect "/"
  else if token ≠ none ∧ pathname = "/" then
    .redirect "/organizations"
  else
    .next

/-- The route-guard rules exactly as the specification states them: a
token cookie that is absent or equals the literal string undefined, on
a protected path, redirects to the public landing route; an existing
token cookie on exactly the public landing route redirects to
/organizations; everything else passes through. -/
def routeGuardClaim (cookieToken : Option String) (pathname : String) : MwDecision :=
  if (cookieToken = none ∨ cookieToken = some "undefined") ∧ isProtectedPath pathname = true then
    .redirect "/"
  else if cookieToken ≠ none ∧ pathname = "/" then
    .redirect "/organizations"
  else
    .next

/-- The route-guard rules amended for the empty-value cookie, which the
source coerces to null: absent, empty, or the literal string undefined
count as no token. -/
def routeGuardAmended (cookieToken : Option String) (pathname : String) : MwDecision :=
  if (cookieToken = none ∨ cookieToken = some "" ∨ cookieToken = some "undefined")
      ∧ isProtectedPath pathname = true then
    .redirect "/"
  else if (cookieToken ≠ none ∧ cookieToken ≠ some "") ∧ pathname = "/" then
    .redirect "/organizations"
  else
    .next

/-- Classification of a token cookie by the only distinctions the
middleware ever makes: falsy (absent or empty), the literal string
undefined, or some other usable value. -/
inductive TokenClass where
  | absent : TokenClass
  | sentinel : TokenClass
  | usable : TokenClass
deriving DecidableEq, Repr

/-- Classifies a raw token cookie value. -/
def tokenClass : Option String → TokenClass
  | none => .absent
  | some v => if v = "" then .absent else if v = "undefined" then .sentinel else .usable

/-- The middleware decision as a function of the token class alone. -/
def mwOnClass : TokenClass → String → MwDecision
  | .absent, p => if isProtectedPath p = true then .redirect "/" else .next
  | .sentinel, p =>
      if isProtectedPath p = true then .redirect "/"
      else if p = "/" then .redirect "/organizations"
      else .next
  | .usable, p => if p = "/" then .redirect "/organizations" else .next

/-- The middleware decision factors through the token class. -/
theorem middleware_eq_mwOnClass (t : Option String) (p : String) :
    middleware t p = mwOnClass (tokenClass t) p := by
  cases t with
  | none => simp [middleware, mwOnClass, tokenClass, jsTruthyStr]
  | some v =>
    by_cases h1 : v = ""
    · subst h1; simp [middleware, mwOnClass, tokenClass, jsTruthyStr]
    · by_cases h2 : v = "undefined"
      · subst h2
        simp [middleware, mwOnClass, tokenClass, jsTruthyStr]
      · simp [middleware, mwOnClass, tokenClass, jsTruthyStr, h1, h2]

/-! Section: Authenticated request gateway (createApiClient, src/unnamed/part_001)

The response interceptor is modelled as a state-passing function. The
state records the cookie store, the Router.push navigations performed
so far, and how many transport dispatches and refresh-endpoint calls
have occurred. The environment supplies the outcome of each transport
dispatch (indexed by how many dispatches happened before it, so that a
retried request may behave differently) and of each refresh-endpoint
call. A fuel parameter bounds the re-entry of the interceptor caused
by the retry line return apiClient(originalRequest). -/

/-- The body of the successful refresh-endpoint response: the
data.jwtToken field, absent or possibly empty. -/
structure RefreshResp where
  jwtToken : Option String
deriving DecidableEq, Repr

/-- An outbound request descriptor: target URL and the Authorization
header (the source never reads other fields in the interceptors). -/
structure RequestCfg where
  url : String
  authorization : Option String
deriving DecidableEq, Repr

/-- Observable gateway state: the cookie store, the Router.push
targets in order, and call counters for the transport and the refresh
endpoint. -/
structure GwState where
  cookies : CookieStore
  navs : List String
  sendCount : Nat
  refreshCount : Nat
deriving DecidableEq, Repr

/-- Environment of the gateway: transport n cfg is the outcome of the
n-th transport dispatch (counting from 0) of this logical request, and
refreshEp n rt uid the outcome of the n-th refresh-endpoint call with
body fields refresh_token := rt and user_id := uid. -/
structure GwEnv where
  transport : Nat → RequestCfg → Except AxiosErr HttpResp
  refreshEp : Nat → String → String → Except AxiosErr RefreshResp

/-- Outcome of a gateway send: a resolved response, a rejection value,
or fuel exhaustion of the model (the source has no such bound; it can
recurse indefinitely). -/
inductive GwResult where
  | ok : HttpResp → GwResult
  | err : RejectVal → GwResult
  | outOfFuel : GwResult
deriving DecidableEq, Repr

/-- The request interceptor (part_001 lines 16-25): read the token
cookie and, when truthy, set Authorization to the bearer header. -/
def applyReqInterceptor (cookieToken : Option String) (cfg : RequestCfg) : RequestCfg :=
  match jsTruthyStr cookieToken with
  | some t => { cfg with authorization := some ("Bearer " ++ t) }
  | none => cfg

/-- The source expression refreshError.response?.status === 400. -/
def rejectStatus400 : RejectVal → Bool
  | .axios e =>
    match e.response with
    | some r => r.status == 400
    | none => false
  | .plain _ => false

/-- The source expression refreshError.response?.data?.message with
fallback to the empty string; a plain JS Error has no response. -/
def rejectMsg : RejectVal → String
  | .axios e => errMsgOf e
  | .plain _ => ""

/-- The condition of part_001 lines 57-60: refresh status 400 or a
message containing the invalid-refresh-token marker. -/
def invalidReject (re : RejectVal) : Bool :=
  rejectStatus400 re || jsIncludes (rejectMsg re) "Refresh token is invalid"

/-- The catch block of part_001 lines 54-67: on the invalid condition,
remove all three cookies and push /login; in every case reject with
the refresh error. -/
def gwCatch (st : GwState) (re : RejectVal) : GwState × GwResult :=
  if invalidReject re then
    ({ st with
        cookies := { token := none, refresh_token := none, user_id := none },
        navs := st.navs ++ ["/login"] },
      .err re)
  else
    (st, .err re)

/-- One send through the gateway (part_001 lines 16-78): apply the
request interceptor, dispatch, pass a success through unchanged, and
on the auth-failure marker run the refresh protocol; a successful
refresh stores the new token, rewrites Authorization on the original
request and re-enters the gateway (the source line
return apiClient(originalRequest)), consuming one unit of fuel. -/
def apiClientSend (env : GwEnv) : Nat → GwState → RequestCfg → GwState × GwResult
  | 0, st, _ => (st, .outOfFuel)
  | fuel + 1, st, cfg =>
    match env.transport st.sendCount (applyReqInterceptor st.cookies.token cfg) with
    | .ok resp => ({ st with sendCount := st.sendCount + 1 }, .ok resp)
    | .error e =>
      if jsIncludes (errMsgOf e) "Unauthorized or invalid token" then
        match jsTruthyStr st.cookies.refresh_token, jsTruthyStr st.cookies.user_id with
        | some oldToken, some userId =>
          match env.refreshEp st.refreshCount oldToken userId with
          | .ok rr =>
            match jsTruthyStr rr.jwtToken with
            | some newTok =>
              apiClientSend env fuel
                { st with
                    cookies := { st.cookies with token := some newTok },
                    sendCount := st.sendCount + 1,
                    refreshCount := st.refreshCount + 1 }
                { applyReqInterceptor st.cookies.token cfg with
                    authorization := some ("Bearer " ++ newTok) }
            | none =>
              gwCatch
                { st with
                    sendCount := st.sendCount + 1,
                    refreshCount := st.refreshCount + 1 }
                (.plain "Failed to retrieve new token")
          | .error re =>
            gwCatch
              { st with
                  sendCount := st.sendCount + 1,
                  refreshCount := st.refreshCount + 1 }
              (.axios re)
        | _, _ =>
          gwCatch { st with sendCount := st.sendCount + 1 }
            (.plain "Missing token or userId for refresh")
      else
        ({ st with sendCount := st.sendCount + 1 }, .err (.axios e))

/-! Section: Secondary api client (src/lib/apiClient.ts lines 44-53) -/

/-- Observable state of the secondary client: the cookie store, the
Router.push navigations, and a counter of refresh attempts (the module
contains no refresh call, so no code path ever increments it). -/
structure ClientState where
  cookies : CookieStore
  navs : List String
  refreshCalls : Nat
deriving DecidableEq, Repr

/-- The source expression error.response?.status. -/
def errStatus (e : AxiosErr) : Option Nat :=
  match e.response with
  | some r => some r.status
  | none => none

/-- The response-error interceptor of src/lib/apiClient.ts: on status
401 remove the token cookie and push /login; always reject with the
original error. -/
def apiClientOnError (st : ClientState) (e : AxiosErr) : ClientState × RejectVal :=
  if errStatus e = some 401 then
    ({ st with
        cookies := { st.cookies with token := none },
        navs := st.navs ++ ["/login"] },
      .axios e)
  else
    (st, .axios e)

/-! Section: Concrete fixtures -/

/-- A transport error whose payload carries the gateway auth-failure
marker. -/
def authFailErr : AxiosErr :=
  { response := some { status := 200, message := "Unauthorized or invalid token", body := "" } }

/-- A refresh-endpoint rejection carrying HTTP status 400 (the Invalid
outcome). -/
def invalid400Err : AxiosErr :=
  { response := some { status := 400, message := "Refresh token is invalid", body := "" } }

/-- A refresh-endpoint rejection with neither status 400 nor the
invalid-refresh-token message (a transient failure). -/
def transientErr : AxiosErr :=
  { response := some { status := 503, message := "Service unavailable", body := "" } }

/-- A fully-populated starting state: all three credential cookies
present, no navigation performed, no calls issued yet. -/
def initState : GwState :=
  { cookies := { token := some "t0", refresh_token := some "r0", user_id := some "u0" },
    navs := [],
    sendCount := 0,
    refreshCount := 0 }

/-- A plain outbound request with no Authorization header pre-set. -/
def initCfg : RequestCfg :=
  { url := "/api/data", authorization := none }

/-- Adversarial environment for the retry bound: every dispatch fails
with the auth-failure marker and every refresh succeeds with a fresh
token. -/
def envLoop : GwEnv :=
  { transport := fun _ _ => .error authFailErr,
    refreshEp := fun n _ _ => .ok { jwtToken := some ("tok" ++ toString n) } }

/-- Environment in which the first two dispatches fail with the
auth-failure marker and the third succeeds, while every refresh
succeeds with a fresh token. -/
def envTwice : GwEnv :=
  { transport := fun n _ =>
      if n ≤ 1 then .error authFailErr
      else .ok { status := 200, message := "", body := "payload" },
    refreshEp := fun n _ _ => .ok { jwtToken := some ("tok" ++ toString n) } }

/-- Environment whose only dispatch fails with the auth-failure marker
and whose refresh succeeds; used for states with missing credentials,
where the refresh endpoint is never reached. -/
def envMarkerOnly : GwEnv :=
  { transport := fun _ _ => .error authFailErr,
    refreshEp := fun _ _ _ => .ok { jwtToken := some "zz" } }

/-- Environment whose dispatch fails with the auth-failure marker and
whose refresh succeeds at the transport level but returns a payload
with no jwtToken field. -/
def envNoJwt : GwEnv :=
  { transport := fun _ _ => .error authFailErr,
    refreshEp := fun _ _ _ => .ok { jwtToken := none } }

/-- Environment whose dispatch fails with the auth-failure marker and
whose refresh rejects with HTTP 400. -/
def envInvalid : GwEnv :=
  { transport := fun _ _ => .error authFailErr,
    refreshEp := fun _ _ _ => .error invalid400Err }

/-- Environment whose dispatch fails with the auth-failure marker and
whose refresh rejects with a transient (non-400, non-invalid) error. -/
def envTransient : GwEnv :=
  { transport := fun _ _ => .error authFailErr,
    refreshEp := fun _ _ _ => .error transientErr }

/-- Environment whose only dispatch succeeds outright. -/
def envOk : GwEnv :=
  { transport := fun _ _ => .ok { status := 200, message := "fine", body := "hello" },
    refreshEp := fun _ _ _ => .ok { jwtToken := some "zz" } }

/-- Starting state whose refresh_token cookie is absent. -/
def stNoRefreshTok : GwState :=
  { cookies := { token := some "t0", refresh_token := none, user_id := some "u0" },
    navs := [],
    sendCount := 0,
    refreshCount := 0 }

/-! Section: Gateway claims -/

/-- C2: when the dispatch fails with the auth-failure marker, both
refresh credentials are present, and the refresh endpoint rejects with
the Invalid outcome (status 400 or the invalid-refresh-token message),
the gateway ends with all three credential cookies removed, pushes
exactly one navigation to /login, and rejects with the refresh
failure. -/
theorem gateway_invalid_refresh (env : GwEnv) (st : GwState) (cfg : RequestCfg)
    (fuel : Nat) (e re : AxiosErr) (rt uid : String)
    (hT : env.transport st.sendCount (applyReqInterceptor st.cookies.token cfg) = .error e)
    (hMark : jsIncludes (errMsgOf e) "Unauthorized or invalid token" = true)
    (hRt : jsTruthyStr st.cookies.refresh_token = some rt)
    (hUid : jsTruthyStr st.cookies.user_id = some uid)
    (hR : env.refreshEp st.refreshCount rt uid = .error re)
    (hInv : invalidReject (.axios re) = true) :
    apiClientSend env (fuel + 1) st cfg =
      ({ cookies := { token := none, refresh_token := none, user_id := none },
         navs := st.navs ++ ["/login"],
         sendCount := st.sendCount + 1,
         refreshCount := st.refreshCount + 1 },
        .err (.axios re)) := by
  simp only [apiClientSend, hT, hMark, hRt, hUid, hR, if_true, gwCatch, hInv]

/-- Witness for C2: the Invalid environment at a concrete state. -/
theorem gateway_invalid_refresh_witness :
    apiClientSend envInvalid 1 initState initCfg =
      ({ cookies := { token := none, refresh_token := none, user_id := none },
         navs := ["/login"], sendCount := 1, refreshCount := 1 },
        .err (.axios invalid400Err)) :=
  gateway_invalid_refresh envInvalid initState initCfg 0 authFailErr invalid400Err "r0" "u0"
    rfl (by decide) rfl rfl rfl (by decide)

/-- C1 (code bug): the source declares an already-retried marker (the
field named underscore-retry in the config cast) but never sets or
checks it, so the refresh-and-resend branch is reachable again on
every subsequent auth failure. In an environment where every dispatch
returns the auth-failure marker and every refresh succeeds, four units
of fuel are fully consumed by four dispatches and four refresh calls
with no terminal outcome, contradicting the claimed bound of at most
one retry (at most two dispatches) per original request. -/
theorem gateway_retry_unbounded :
    (apiClientSend envLoop 4 initState initCfg).1.sendCount = 4 ∧
      (apiClientSend envLoop 4 initState initCfg).1.refreshCount = 4 ∧
      (apiClientSend envLoop 4 initState initCfg).2 = GwResult.outOfFuel := by
  refine ⟨by decide, by decide, by decide⟩

/-- C5 (code bug): in an environment where the first two dispatches
fail with the auth-failure marker, the third succeeds, and every
refresh succeeds, the gateway dispatches three times — the original
request is resent twice, not exactly once — and the value returned to
the caller is the response of the third dispatch rather than the outcome of
the single claimed resend (which was a failure). -/
theorem gateway_resend_not_single :
    apiClientSend envTwice 10 initState initCfg =
      ({ cookies := { token := some "tok1", refresh_token := some "r0", user_id := some "u0" },
         navs := [], sendCount := 3, refreshCount := 2 },
        GwResult.ok { status := 200, message := "", body := "payload" }) := by
  decide

/-- C3 counterexample: with the refresh_token cookie absent and a
dispatch failing with the auth-failure marker, no refresh-endpoint
call is issued, but the outcome is not the claimed Invalid handling:
the token cookie survives and no navigation to /login happens. -/
theorem gateway_missing_creds_counterexample :
    (apiClientSend envMarkerOnly 1 stNoRefreshTok initCfg).1.refreshCount = 0 ∧
      ¬ ((apiClientSend envMarkerOnly 1 stNoRefreshTok initCfg).1.cookies.token = none ∧
        (apiClientSend envMarkerOnly 1 stNoRefreshTok initCfg).1.navs = ["/login"]) := by
  refine ⟨by decide, by decide⟩

/-- C3 (amended): when the dispatch fails with the auth-failure marker
and refresh_token or user_id is missing (or empty), no refresh-endpoint
call is issued and the gateway rejects with the missing-credentials
error, leaving the cookie store and navigation history unchanged — the
missing-credential case is handled like a transient failure, not like
a rejected refresh token. -/
theorem gateway_missing_creds (env : GwEnv) (st : GwState) (cfg : RequestCfg)
    (fuel : Nat) (e : AxiosErr)
    (hT : env.transport st.sendCount (applyReqInterceptor st.cookies.token cfg) = .error e)
    (hMark : jsIncludes (errMsgOf e) "Unauthorized or invalid token" = true)
    (hMiss : jsTruthyStr st.cookies.refresh_token = none ∨
      jsTruthyStr st.cookies.user_id = none) :
    apiClientSend env (fuel + 1) st cfg =
      ({ st with sendCount := st.sendCount + 1 },
        .err (.plain "Missing token or userId for refresh")) := by
  have hinv : invalidReject (.plain "Missing token or userId for refresh") = false := by decide
  rcases hMiss with h | h
  · cases h2 : jsTruthyStr st.cookies.user_id <;>
      simp only [apiClientSend, hT, hMark, h, h2, if_true, gwCatch, hinv, if_false,
        Bool.false_eq_true]
  · cases h2 : jsTruthyStr st.cookies.refresh_token <;>
      simp only [apiClientSend, hT, hMark, h, h2, if_true, gwCatch, hinv, if_false,
        Bool.false_eq_true]

/-- Witness for C3 at a state missing the refresh_token cookie. -/
theorem gateway_missing_creds_witness :
    apiClientSend envMarkerOnly 1 stNoRefreshTok initCfg =
      ({ cookies := { token := some "t0", refresh_token := none, user_id := some "u0" },
         navs := [], sendCount := 1, refreshCount := 0 },
        .err (.plain "Missing token or userId for refresh")) :=
  gateway_missing_creds envMarkerOnly stNoRefreshTok initCfg 0 authFailErr
    rfl (by decide) (Or.inl rfl)

/-- C4 counterexample: with a refresh that succeeds at the transport
level but whose payload has no jwtToken field, the outcome is not the
claimed Invalid handling: the credential cookies survive, no
navigation to /login happens, and the rejection is the plain
missing-token error. -/
theorem gateway_no_jwt_counterexample :
    (apiClientSend envNoJwt 1 initState initCfg).2 =
        GwResult.err (.plain "Failed to retrieve new token") ∧
      ¬ ((apiClientSend envNoJwt 1 initState initCfg).1.cookies.token = none ∧
        (apiClientSend envNoJwt 1 initState initCfg).1.navs = ["/login"]) := by
  refine ⟨by decide, by decide⟩

/-- C4 (amended): when the dispatch fails with the auth-failure
marker, both refresh credentials are present, and the refresh endpoint
succeeds with a payload whose jwtToken is absent or empty, the
malformed success is not trusted — no token is stored — and the
gateway rejects with the missing-token error, leaving the cookie store
and navigation history unchanged; unlike a rejected refresh token, no
purge and no navigation occur. -/
theorem gateway_malformed_refresh (env : GwEnv) (st : GwState) (cfg : RequestCfg)
    (fuel : Nat) (e : AxiosErr) (rt uid : String) (rr : RefreshResp)
    (hT : env.transport st.sendCount (applyReqInterceptor st.cookies.token cfg) = .error e)
    (hMark : jsIncludes (errMsgOf e) "Unauthorized or invalid token" = true)
    (hRt : jsTruthyStr st.cookies.refresh_token = some rt)
    (hUid : jsTruthyStr st.cookies.user_id = some uid)
    (hR : env.refreshEp st.refreshCount rt uid = .ok rr)
    (hNo : jsTruthyStr rr.jwtToken = none) :
    apiClientSend env (fuel + 1) st cfg =
      ({ st with sendCount := st.sendCount + 1, refreshCount := st.refreshCount + 1 },
        .err (.plain "Failed to retrieve new token")) := by
  have hinv : invalidReject (.plain "Failed to retrieve new token") = false := by decide
  simp only [apiClientSend, hT, hMark, hRt, hUid, hR, hNo, if_true, gwCatch, hinv, if_false,
    Bool.false_eq_true]

/-- Witness for C4 at the no-jwtToken environment. -/
theorem gateway_malformed_refresh_witness :
    apiClientSend envNoJwt 1 initState initCfg =
      ({ cookies := { token := some "t0", refresh_token := some "r0", user_id := some "u0" },
         navs := [], sendCount := 1, refreshCount := 1 },
        .err (.plain "Failed to retrieve new token")) :=
  gateway_malformed_refresh envNoJwt initState initCfg 0 authFailErr "r0" "u0"
    { jwtToken := none } rfl (by decide) rfl rfl rfl rfl

/-- C6: when the dispatch succeeds, the gateway returns exactly that
response and mutates neither the cookie store nor the navigation
history; only the dispatch counter advances. -/
theorem gateway_success_identity (env : GwEnv) (st : GwState) (cfg : RequestCfg)
    (fuel : Nat) (resp : HttpResp)
    (hT : env.transport st.sendCount (applyReqInterceptor st.cookies.token cfg) = .ok resp) :
    apiClientSend env (fuel + 1) st cfg =
      ({ st with sendCount := st.sendCount + 1 }, .ok resp) := by
  simp only [apiClientSend, hT]

/-- Witness for C6 at the always-succeeding environment. -/
theorem gateway_success_identity_witness :
    apiClientSend envOk 1 initState initCfg =
      ({ cookies := { token := some "t0", refresh_token := some "r0", user_id := some "u0" },
         navs := [], sendCount := 1, refreshCount := 0 },
        .ok { status := 200, message := "fine", body := "hello" }) :=
  gateway_success_identity envOk initState initCfg 0
    { status := 200, message := "fine", body := "hello" } rfl

/-- C7: when the dispatch fails with the auth-failure marker, both
refresh credentials are present, and the refresh endpoint rejects with
anything other than status 400 or the invalid-refresh-token message,
the gateway rejects with that refresh error and leaves the cookie
store and navigation history unchanged: no credential is removed and
no navigation is triggered. -/
theorem gateway_transient_refresh (env : GwEnv) (st : GwState) (cfg : RequestCfg)
    (fuel : Nat) (e re : AxiosErr) (rt uid : String)
    (hT : env.transport st.sendCount (applyReqInterceptor st.cookies.token cfg) = .error e)
    (hMark : jsIncludes (errMsgOf e) "Unauthorized or invalid token" = true)
    (hRt : jsTruthyStr st.cookies.refresh_token = some rt)
    (hUid : jsTruthyStr st.cookies.user_id = some uid)
    (hR : env.refreshEp st.refreshCount rt uid = .error re)
    (hInv : invalidReject (.axios re) = false) :
    apiClientSend env (fuel + 1) st cfg =
      ({ st with sendCount := st.sendCount + 1, refreshCount := st.refreshCount + 1 },
        .err (.axios re)) := by
  simp only [apiClientSend, hT, hMark, hRt, hUid, hR, if_true, gwCatch, hInv, if_false,
    Bool.false_eq_true]

/-- Witness for C7 at the transient-failure environment. -/
theorem gateway_transient_refresh_witness :
    apiClientSend envTransient 1 initState initCfg =
      ({ cookies := { token := some "t0", refresh_token := some "r0", user_id := some "u0" },
         navs := [], sendCount := 1, refreshCount := 1 },
        .err (.axios transientErr)) :=
  gateway_transient_refresh envTransient initState initCfg 0 authFailErr transientErr
    "r0" "u0" rfl (by decide) rfl rfl rfl (by decide)

/-! Section: Route guard claims -/

/-- C8 counterexample: a token cookie present with the empty-string
value on the protected path /dashboard. The claimed rules pass the
request through (the cookie is neither absent nor the literal string
undefined), but the middleware coerces the falsy value to null and
redirects to the public landing route. -/
theorem routeGuard_claim_counterexample :
    middleware (some "") "/dashboard" = MwDecision.redirect "/" ∧
      routeGuardClaim (some "") "/dashboard" = MwDecision.next := by
  constructor
  · decide
  · decide

/-- C8 (amended): the middleware decision is exactly the claimed rule
table once an empty-valued token cookie is counted as no token: absent,
empty, or the literal string undefined on a protected path redirects to
the public landing route; a present non-empty token on exactly the
public landing route redirects to /organizations; every other request
passes through. -/
theorem routeGuard_matches_amended_rules (ct : Option String) (p : String) :
    middleware ct p = routeGuardAmended ct p := by
  cases ct with
  | none => simp [middleware, routeGuardAmended, jsTruthyStr]
  | some v =>
    by_cases h1 : v = ""
    · subst h1; simp [middleware, routeGuardAmended, jsTruthyStr]
    · by_cases h2 : v = "undefined"
      · subst h2; simp [middleware, routeGuardAmended, jsTruthyStr]
      · simp [middleware, routeGuardAmended, jsTruthyStr, h1, h2]

/-- C9 counterexample: two requests to the protected path /dashboard
whose token cookies are equally present (both some value) receive
different decisions, so the decision is not a function of the pair
(path, token-presence). -/
theorem routeGuard_presence_counterexample :
    (some "undefined" : Option String).isSome = (some "abc" : Option String).isSome ∧
      middleware (some "undefined") "/dashboard" ≠ middleware (some "abc") "/dashboard" := by
  constructor
  · decide
  · decide

/-- C9 (amended): the middleware decision is a deterministic function
of the path and the classification of the token (absent-or-empty, the
literal string undefined, or any other present value): any two requests
with the same path and the same token class receive the same
decision. -/
theorem routeGuard_deterministic_on_class (t1 t2 : Option String) (p : String)
    (h : tokenClass t1 = tokenClass t2) :
    middleware t1 p = middleware t2 p := by
  rw [middleware_eq_mwOnClass, middleware_eq_mwOnClass, h]

/-- Witness for C9: two distinct usable tokens on a concrete path
receive the same decision. -/
theorem routeGuard_deterministic_on_class_witness :
    middleware (some "alpha") "/datasets" = middleware (some "beta") "/datasets" :=
  routeGuard_deterministic_on_class (some "alpha") (some "beta") "/datasets" (by decide)

/-! Section: Secondary client claim -/

/-- C10: for every response error with HTTP status 401, the secondary
client removes only the token cookie (refresh_token and user_id are
preserved), pushes exactly one navigation to /login, rejects with the
original error, and issues no refresh call (the interceptor performs
no refresh under any circumstances, reflected by the untouched
refresh-call counter). -/
theorem secondary_client_401 (st : ClientState) (e : AxiosErr)
    (h : errStatus e = some 401) :
    apiClientOnError st e =
      ({ cookies :=
          { token := none,
            refresh_token := st.cookies.refresh_token,
            user_id := st.cookies.user_id },
         navs := st.navs ++ ["/login"],
         refreshCalls := st.refreshCalls },
        .axios e) := by
  simp [apiClientOnError, h]

/-- Witness for C10 at a concrete state and 401 error. -/
theorem secondary_client_401_witness :
    apiClientOnError
        { cookies := { token := some "t", refresh_token := some "r", user_id := some "u" },
          navs := [], refreshCalls := 0 }
        { response := some { status := 401, message := "Unauthorized", body := "" } } =
      ({ cookies := { token := none, refresh_token := some "r", user_id := some "u" },
         navs := ["/login"],
         refreshCalls := 0 },
        .axios { response := some { status := 401, message := "Unauthorized", body := "" } }) :=
  secondary_client_401
    { cookies := { token := some "t", refresh_token := some "r", user_id := some "u" },
      navs := [], refreshCalls := 0 }
    { response := some { status := 401, message := "Unauthorized", body := "" } }
    rfl
